import Mathlib

/-!
Verification development for `download_publications.py` (MIDeL repository).

Python strings are modelled as `List Char` (`PyStr`).  The helper functions
below model the Python string primitives the script uses (`str.strip`,
`str.lower`, `str.startswith`, `str.endswith`, the substring test `in`,
`str.replace(pat, '')`, `str.split()`, `int(...)`), and the main definitions
are direct translations of the script's functions:
`clean_doi`, `generate_publication_id`, `add_publication_to_json`,
`save_publications_json` (its sort step), `resolve_doi_to_pdf_url`
(its candidate-pooling and selection phase over an already fetched landing
page), `get_publisher_pdf_patterns`, `find_pdf_in_meta_tags`,
`is_likely_pdf_url`, and `download_pdf` (its retry/cleanup state machine,
with the per-attempt network outcome supplied as data).
-/

set_option maxRecDepth 2000

/-- Python strings are modelled as lists of characters. -/
abbrev PyStr := List Char

/-- Characters stripped by Python `str.strip()` (ASCII whitespace set). -/
def pySpace (c : Char) : Bool :=
  c == ' ' || c == '\t' || c == '\n' || c == '\r' || c == '\x0b' || c == '\x0c'

/-- Model of Python `str.strip()`: drop leading and trailing whitespace. -/
def pyStrip (s : PyStr) : PyStr :=
  ((s.dropWhile pySpace).reverse.dropWhile pySpace).reverse

/-- Model of Python `str.lower()` (ASCII case folding suffices here). -/
def pyLower (s : PyStr) : PyStr :=
  s.map Char.toLower

/-- Model of Python `s.startswith(p)`: `begins p s` is true when `p` is an
initial segment of `s`. -/
def begins : PyStr → PyStr → Bool
  | [], _ => true
  | _ :: _, [] => false
  | p :: ps, c :: cs => p == c && begins ps cs

/-- Model of Python `s.endswith(p)`. -/
def pyEnds (p s : PyStr) : Bool :=
  begins p.reverse s.reverse

/-- Model of the Python substring test `p in s`. -/
def occurs (p : PyStr) : PyStr → Bool
  | [] => begins p []
  | c :: rest => begins p (c :: rest) || occurs p rest

/-- Model of `any(tok in s for tok in toks)`. -/
def occursAny (toks : List PyStr) (s : PyStr) : Bool :=
  toks.any (fun t => occurs t s)

/-- Fuel-indexed worker for `replaceDel`; the fuel is an upper bound on the
input length, so the base case `fuel = 0` is reached only on `[]`-like
inputs and the function computes by structural recursion. -/
def replaceDelFuel (p : PyStr) : Nat → PyStr → PyStr
  | 0, s => s
  | _ + 1, [] => []
  | fuel + 1, c :: rest =>
    if p ≠ [] ∧ begins p (c :: rest) then
      replaceDelFuel p fuel ((c :: rest).drop p.length)
    else
      c :: replaceDelFuel p fuel rest

/-- Model of Python `s.replace(p, '')` for a nonempty pattern `p`: delete
every non-overlapping occurrence of `p`, scanning left to right. -/
def replaceDel (p : PyStr) (s : PyStr) : PyStr :=
  replaceDelFuel p s.length s

/-- Recognized DOI URL/scheme marker `https://doi.org/`. -/
def httpsPre : PyStr := "https://doi.org/".toList

/-- Recognized DOI URL/scheme marker `http://doi.org/`. -/
def httpPre : PyStr := "http://doi.org/".toList

/-- Recognized DOI scheme marker `doi:`. -/
def doiPre : PyStr := "doi:".toList

/-- Recognized DOI scheme marker `DOI:`. -/
def doiUpperPre : PyStr := "DOI:".toList

/-- The four recognized markers, in the order the code tests them. -/
def recognizedPres : List PyStr := [httpsPre, httpPre, doiPre, doiUpperPre]

/-- Translation of `clean_doi` (src/download_publications.py lines 67-93):
strip whitespace, then if the result starts with one of the recognized
markers, remove every occurrence of that marker via `str.replace`.
The trailing `10.`-check only logs a warning and does not change the value. -/
def clean_doi (doi : PyStr) : PyStr :=
  let d := pyStrip doi
  if begins httpsPre d then replaceDel httpsPre d
  else if begins httpPre d then replaceDel httpPre d
  else if begins doiPre d then replaceDel doiPre d
  else if begins doiUpperPre d then replaceDel doiUpperPre d
  else d

/-- Model of Python `str.split()` (split on whitespace runs, no empties):
worker with an accumulator of the current word, reversed. -/
def pySplitAux : PyStr → PyStr → List PyStr
  | [], acc => if acc.isEmpty then [] else [acc.reverse]
  | c :: rest, acc =>
    if pySpace c then
      if acc.isEmpty then pySplitAux rest [] else acc.reverse :: pySplitAux rest []
    else pySplitAux rest (c :: acc)

/-- Model of Python `str.split()` with no separator argument. -/
def pySplitWs (s : PyStr) : List PyStr :=
  pySplitAux s []

/-- Model of `re.sub(r'_+', '_', s)`: collapse runs of underscores. -/
def collapseUnderscores : PyStr → PyStr
  | [] => []
  | [c] => [c]
  | c :: d :: rest =>
    if c == '_' && d == '_' then collapseUnderscores (d :: rest)
    else c :: collapseUnderscores (d :: rest)

/-- Translation of `generate_publication_id` (lines 405-430): alphabetic-only
author truncated to 15 chars, title restricted to `[a-zA-Z0-9\s]`, first five
words joined by `_`, all lowercased, with underscore runs collapsed. -/
def generate_publication_id (year firstAuthor title : PyStr) : PyStr :=
  let authorClean := (firstAuthor.filter Char.isAlpha).take 15
  let titleClean := title.filter (fun c => c.isAlphanum || pySpace c)
  let titleWords := (pySplitWs titleClean).take 5
  let titleShort := List.intercalate ['_'] titleWords
  let pubId := pyLower (year ++ ['_'] ++ authorClean ++ ['_'] ++ titleShort)
  collapseUnderscores pubId

/-- Group key of a year group: a numeric year or the catch-all `"older"`. -/
inductive YearKey where
  | older
  | num (n : Int)
deriving DecidableEq

/-- A publication record as stored in publications.json. -/
structure Pub where
  id : PyStr
  title : PyStr
  url : PyStr
  type : PyStr
  status : PyStr
deriving DecidableEq

/-- A year group of publications.json: a key and its ordered records. -/
structure YearGroup where
  year : YearKey
  publications : List Pub
deriving DecidableEq

/-- Sequence of decimal digits to the number it denotes. -/
def digitsToNat (l : PyStr) : Nat :=
  l.foldl (fun a c => 10 * a + (c.toNat - '0'.toNat)) 0

/-- Parse a nonempty all-digit string. -/
def parseDigits (l : PyStr) : Option Nat :=
  if !l.isEmpty && l.all Char.isDigit then some (digitsToNat l) else none

/-- Model of Python `int(s)` on strings: strip whitespace, optional sign,
nonempty digit run (the rarely used underscore digit separators of Python
numeric literals are not modelled). Failure is `ValueError`, i.e. `none`. -/
def pyInt (s : PyStr) : Option Int :=
  match pyStrip s with
  | [] => none
  | '+' :: rest => (parseDigits rest).map (fun n => (n : Int))
  | '-' :: rest => (parseDigits rest).map (fun n => -(n : Int))
  | l => (parseDigits l).map (fun n => (n : Int))

/-- Translation of the year-categorization block of `add_publication_to_json`
(lines 459-467): `int(year)` with `ValueError` mapping to `"older"`,
and parsed years below 2022 mapping to `"older"` as well. -/
def yearCategory (year : PyStr) : YearKey :=
  match pyInt year with
  | some n => if n < 2022 then .older else .num n
  | none => .older

/-- Translation of the duplicate check of `add_publication_to_json`
(lines 451-457): case-insensitive exact title match against every record of
every year group. -/
def isDupTitle (data : List YearGroup) (title : PyStr) : Bool :=
  data.any (fun g => g.publications.any (fun p => pyLower p.title == pyLower title))

/-- Append a record to the first group carrying the given key, leaving all
other groups untouched (models the find-then-`append` at lines 469-493). -/
def appendToFirstGroup (key : YearKey) (pub : Pub) : List YearGroup → List YearGroup
  | [] => []
  | g :: rest =>
    if g.year = key then { g with publications := g.publications ++ [pub] } :: rest
    else g :: appendToFirstGroup key pub rest

/-- Translation of `add_publication_to_json` (lines 432-500): duplicate titles
block insertion, otherwise the record joins the (found or created) group of
its year category. Returns the Python function's boolean together with the
resulting data (Python mutates `publications_data` in place). -/
def add_publication_to_json (data : List YearGroup) (year firstAuthor title doi : PyStr)
    (pdfUrl : Option PyStr) : Bool × List YearGroup :=
  let pubId := generate_publication_id year firstAuthor title
  if isDupTitle data title then (false, data)
  else
    let key := yearCategory year
    let newPub : Pub := { id := pubId, title := title, url := pdfUrl.getD [],
                          type := "journal".toList, status := "published".toList }
    if data.any (fun g => decide (g.year = key)) then
      (true, appendToFirstGroup key newPub data)
    else
      (true, data ++ [{ year := key, publications := [newPub] }])

/-- Comparison used by `save_publications_json`'s sort key (line 392):
`float('inf')` for the `"older"` sentinel, the numeric year otherwise, so
`"older"` is at least every other key. -/
def keyLeB : YearKey → YearKey → Bool
  | _, .older => true
  | .older, .num _ => false
  | .num m, .num n => m ≤ n

/-- Translation of the sort step of `save_publications_json` (line 392):
`data.sort(key=..., reverse=True)` is a stable descending sort by the key,
modelled by a stable insertion sort with the flipped relation (a stable sort
under a fixed total preorder has a unique result, so the choice of stable
algorithm is immaterial). -/
def saveSortGroups (data : List YearGroup) : List YearGroup :=
  List.insertionSort (fun a b => keyLeB b.year a.year = true) data

/-- An anchor element of the landing page: `href` attribute and visible text
(only anchors with an `href` are consulted: `find_all('a', href=True)`). -/
structure Link where
  href : PyStr
  text : PyStr
deriving DecidableEq

/-- A `meta` element of the landing page; an absent attribute is modelled by
the empty string, which is how the code's `get(..., '')` and truthiness
checks treat it. -/
structure Meta where
  name : PyStr
  content : PyStr
deriving DecidableEq

/-- A fetched landing page, reduced to the elements the resolver inspects. -/
structure Page where
  links : List Link
  metas : List Meta
deriving DecidableEq

/-- Which strategy produced a candidate (the code records this as a free-form
source string; only the strategy identity matters here). -/
inductive CandSrc where
  | anchorText
  | anchorHref
  | pubPattern
  | metaTag
deriving DecidableEq

/-- Translation of `is_likely_pdf_url` (lines 285-309). -/
def is_likely_pdf_url (url : PyStr) : Bool :=
  let u := pyLower url
  pyEnds ".pdf".toList u ||
    occursAny ["pdf".toList, "download".toList, "filetype=pdf".toList,
      "content-type=application/pdf".toList] u

/-- Translation of the generic anchor-heuristic of `resolve_doi_to_pdf_url`
(lines 151-161): a text-indicator candidate and/or an href-indicator
candidate per link, in document order. -/
def anchorCands (links : List Link) : List (PyStr × CandSrc) :=
  links.flatMap (fun l =>
    let text := pyLower (pyStrip l.text)
    (if occursAny ["pdf".toList, "download".toList, "full text".toList] text
      then [(l.href, CandSrc.anchorText)] else []) ++
    (if occursAny [".pdf".toList, "pdf".toList, "download".toList] (pyLower l.href)
      then [(l.href, CandSrc.anchorHref)] else []))

/-- Model of `re.search(r'/pmc/articles/([^/]+)', url)`: scan position by
position for the literal marker followed by a nonempty run of non-`/`
characters, returning that run. -/
def pmcSearch (s : PyStr) : Option PyStr :=
  match s with
  | [] => none
  | _ :: rest =>
    if begins "/pmc/articles/".toList s then
      let run := (s.drop "/pmc/articles/".toList.length).takeWhile (fun x => x ≠ '/')
      if run.isEmpty then pmcSearch rest else some run
    else pmcSearch rest

/-- Translation of `get_publisher_pdf_patterns` (lines 194-255): the
authority-substring dispatch with its hand-tuned link rules. -/
def get_publisher_pdf_patterns (url : PyStr) (links : List Link) : List (PyStr × CandSrc) :=
  if occurs "ncbi.nlm.nih.gov".toList url then
    (if occurs "/pmc/articles/".toList url then
      match pmcSearch url with
      | some pmcId =>
        [("https://www.ncbi.nlm.nih.gov/pmc/articles/".toList ++ pmcId ++ "/pdf/".toList,
          CandSrc.pubPattern)]
      | none => []
     else []) ++
    (links.filter (fun l =>
        occurs "pdf".toList l.href && occurs "/pmc/".toList l.href)).map
      (fun l => (l.href, CandSrc.pubPattern))
  else if occurs "nature.com".toList url then
    (links.filter (fun l =>
        occurs ".pdf".toList l.href || occurs "download".toList l.href)).map
      (fun l => (l.href, CandSrc.pubPattern))
  else if occurs "sciencedirect.com".toList url || occurs "elsevier.com".toList url then
    (links.filter (fun l =>
        occurs "pdfdownload".toList l.href || occurs "pdf".toList l.href)).map
      (fun l => (l.href, CandSrc.pubPattern))
  else if occurs "springer.com".toList url || occurs "link.springer.com".toList url then
    (links.filter (fun l =>
        occurs "content/pdf".toList l.href || occurs "download".toList l.href)).map
      (fun l => (l.href, CandSrc.pubPattern))
  else if occurs "wiley.com".toList url then
    (links.filter (fun l =>
        occurs "pdfdirect".toList l.href || occurs "pdf".toList l.href)).map
      (fun l => (l.href, CandSrc.pubPattern))
  else if occurs "ieee.org".toList url then
    (links.filter (fun l =>
        occurs "pdf".toList l.href && occurs "download".toList (pyLower (pyStrip l.text)))).map
      (fun l => (l.href, CandSrc.pubPattern))
  else []

/-- Translation of `find_pdf_in_meta_tags` (lines 257-283): the
`citation_pdf_url` meta with nonempty content first, else the first meta
whose content mentions `.pdf`. -/
def find_pdf_in_meta_tags (metas : List Meta) : Option PyStr :=
  match metas.find? (fun m => m.name == "citation_pdf_url".toList) with
  | some m =>
    if !m.content.isEmpty then some m.content
    else (metas.find? (fun m => !m.content.isEmpty &&
            occurs ".pdf".toList (pyLower m.content))).map Meta.content
  | none =>
    (metas.find? (fun m => !m.content.isEmpty &&
        occurs ".pdf".toList (pyLower m.content))).map Meta.content

/-- Absolutization of a candidate URL (lines 174-179).  The two library
resolutions (`urlparse`-based root joining and `urljoin`) are modelled as the
parameters `root` and `uj`; candidates already starting with `http` are
passed through unchanged, exactly as in the code. -/
def absolutizeCand (uj root : PyStr → PyStr) (cand : PyStr) : PyStr :=
  if begins "/".toList cand then root cand
  else if !begins "http".toList cand then uj cand
  else cand

/-- Candidate-selection loop of `resolve_doi_to_pdf_url` (lines 172-184):
absolutize each pooled candidate in order and return the first one passing
`is_likely_pdf_url`, together with its strategy tag. -/
def pickCandidate (uj root : PyStr → PyStr) :
    List (PyStr × CandSrc) → Option (PyStr × CandSrc)
  | [] => none
  | (u, s) :: rest =>
    let u' := absolutizeCand uj root u
    if is_likely_pdf_url u' then some (u', s) else pickCandidate uj root rest

/-- Candidate pool of `resolve_doi_to_pdf_url` (lines 147-170), in the order
the code builds it: generic anchor heuristics first, then publisher
patterns, then the meta-tag candidate. -/
def resolveCands (publisherUrl : PyStr) (page : Page) : List (PyStr × CandSrc) :=
  anchorCands page.links ++
  get_publisher_pdf_patterns publisherUrl page.links ++
  (match find_pdf_in_meta_tags page.metas with
   | some u => [(u, CandSrc.metaTag)]
   | none => [])

/-- Page-inspection phase of `resolve_doi_to_pdf_url` (lines 138-188), for an
already fetched landing page: a final URL ending in `.pdf` is returned
immediately; otherwise the first surviving pooled candidate, and failing
that the landing page URL itself. -/
def resolve_doi_to_pdf_url (uj root : PyStr → PyStr) (publisherUrl : PyStr)
    (page : Page) : PyStr :=
  if pyEnds ".pdf".toList (pyLower publisherUrl) then publisherUrl
  else
    match pickCandidate uj root (resolveCands publisherUrl page) with
    | some (u, _) => u
    | none => publisherUrl

/-- Outcome the network hands one download attempt: a non-HTTP exception
(connection/timeout/SSL-on-both-transports), or a response with status,
`content-type` header and full body (bytes as naturals). -/
inductive AttemptEnv where
  | netErr
  | resp (status : Nat) (contentType : PyStr) (body : List Nat)
deriving DecidableEq

/-- Retry loop of `download_pdf` (lines 588-650) over the remaining attempts'
network outcomes, with the current contents of the destination file.
Returns (overall result, final destination file, attempts used).

Per attempt, mirroring the code: a raised non-HTTP exception removes any
destination file and backs off to the next attempt; HTTP 403 on a non-final
attempt continues directly (`continue` skips the `except` block, so the
file is untouched); any other `raise_for_status` failure (4xx/5xx, and 403
on the final attempt) removes the file and moves on.  On a good response,
when neither the `content-type` header mentions `pdf` nor the URL ends in
`.pdf`, the signature check consumes the first 1024 bytes of the body
stream (`next(response.iter_content(1024))`), so only the remainder is
written; a written file of more than 1000 bytes is success, otherwise the
file is removed and the loop continues. -/
def download_pdf_loop (url : PyStr) :
    List AttemptEnv → Option (List Nat) → Bool × Option (List Nat) × Nat
  | [], file => (false, file, 0)
  | e :: rest, file =>
    match e with
    | .netErr =>
      let r := download_pdf_loop url rest none
      (r.1, r.2.1, r.2.2 + 1)
    | .resp status ctype body =>
      if status == 403 && !rest.isEmpty then
        let r := download_pdf_loop url rest file
        (r.1, r.2.1, r.2.2 + 1)
      else if 400 ≤ status then
        let r := download_pdf_loop url rest none
        (r.1, r.2.1, r.2.2 + 1)
      else
        let inspected := !occurs "pdf".toList (pyLower ctype) &&
          !pyEnds ".pdf".toList (pyLower url)
        let written := if inspected then body.drop 1024 else body
        if written.length > 1000 then (true, some written, 1)
        else
          let r := download_pdf_loop url rest none
          (r.1, r.2.1, r.2.2 + 1)

/-- Translation of `download_pdf` (lines 564-650): run the retry loop for
`for attempt in range(max_retries)`, starting with no destination file (the
caller only invokes it for paths that do not exist yet).  `env i` is the
network outcome attempt `i` would observe; a remaining-list element `i`
being last corresponds to `attempt = max_retries - 1`. -/
def download_pdf (url : PyStr) (env : Nat → AttemptEnv) (maxRetries : Nat) :
    Bool × Option (List Nat) × Nat :=
  download_pdf_loop url ((List.range maxRetries).map env) none

/-! Lemmas about the string primitives. -/

/-- A list always starts with itself followed by anything. -/
theorem begins_append_self (p s : PyStr) : begins p (p ++ s) = true := by
  induction p with
  | nil => rfl
  | cons c t ih => simp [begins, ih]

/-- With no occurrence of the (automatically nonempty) pattern, deletion is
the identity, for any sufficient fuel. -/
theorem replaceDelFuel_no_occ (p : PyStr) :
    ∀ (fuel : Nat) (s : PyStr), occurs p s = false → s.length ≤ fuel →
      replaceDelFuel p fuel s = s := by
  intro fuel
  induction fuel with
  | zero => intro s _ _; cases s <;> rfl
  | succ f ih =>
    intro s hocc hlen
    cases s with
    | nil => rfl
    | cons c rest =>
      have hsplit : begins p (c :: rest) = false ∧ occurs p rest = false := by
        have := hocc
        simp [occurs, Bool.or_eq_false_iff] at this
        exact this
      simp only [replaceDelFuel]
      rw [if_neg]
      · rw [ih rest hsplit.2 (by simpa using Nat.le_of_succ_le_succ hlen)]
      · intro hcontra
        exact absurd hsplit.1 (by simp [hcontra.2])

/-- Deleting a nonempty pattern from `pattern ++ s` deletes the front copy
and, when `s` has no further occurrence, returns `s` itself. -/
theorem replaceDel_append_self (p s : PyStr) (hp : p ≠ []) (h : occurs p s = false) :
    replaceDel p (p ++ s) = s := by
  cases p with
  | nil => exact absurd rfl hp
  | cons a p' =>
    show replaceDelFuel (a :: p') ((a :: p') ++ s).length ((a :: p') ++ s) = s
    have hlen : ((a :: p') ++ s).length = (p' ++ s).length + 1 := by simp
    rw [hlen]
    simp only [replaceDelFuel]
    rw [if_pos ⟨by simp, begins_append_self _ _⟩]
    rw [show List.drop (a :: p').length (a :: List.append p' s) = s from by
      simpa using List.drop_left (a :: p') s]
    exact replaceDelFuel_no_occ _ _ _ h (by simp)

/-- Mismatch facts for the four recognized markers: each marker fails to
start a string built from a different marker, whatever follows. -/
theorem begins_https_http (S : PyStr) : begins httpsPre (httpPre ++ S) = false := rfl

theorem begins_https_doi (S : PyStr) : begins httpsPre (doiPre ++ S) = false := rfl

theorem begins_https_doiU (S : PyStr) : begins httpsPre (doiUpperPre ++ S) = false := rfl

theorem begins_http_doi (S : PyStr) : begins httpPre (doiPre ++ S) = false := rfl

theorem begins_http_doiU (S : PyStr) : begins httpPre (doiUpperPre ++ S) = false := rfl

theorem begins_doi_doiU (S : PyStr) : begins doiPre (doiUpperPre ++ S) = false := rfl

/-- Core fact for the amended C7: cleaning `P ++ S` for a recognized marker
`P` returns `S`, provided stripping does not alter the input (no trailing
whitespace in `S`) and `S` contains no further occurrence of `P`. -/
theorem clean_doi_marker (P S : PyStr) (hP : P ∈ recognizedPres)
    (hstrip : pyStrip (P ++ S) = P ++ S) (hocc : occurs P S = false) :
    clean_doi (P ++ S) = S := by
  simp only [recognizedPres, List.mem_cons, List.not_mem_nil, or_false] at hP
  rcases hP with h | h | h | h <;> subst h
  · have hsel : clean_doi (httpsPre ++ S) = replaceDel httpsPre (httpsPre ++ S) := by
      simp only [clean_doi, hstrip, begins_append_self, if_pos]
    rw [hsel, replaceDel_append_self _ _ (by decide) hocc]
  · have hsel : clean_doi (httpPre ++ S) = replaceDel httpPre (httpPre ++ S) := by
      simp only [clean_doi, hstrip, begins_https_http, Bool.false_eq_true, if_false,
        begins_append_self, if_pos]
    rw [hsel, replaceDel_append_self _ _ (by decide) hocc]
  · have hsel : clean_doi (doiPre ++ S) = replaceDel doiPre (doiPre ++ S) := by
      simp only [clean_doi, hstrip, begins_https_doi, begins_http_doi, Bool.false_eq_true,
        if_false, begins_append_self, if_pos]
    rw [hsel, replaceDel_append_self _ _ (by decide) hocc]
  · have hsel : clean_doi (doiUpperPre ++ S) = replaceDel doiUpperPre (doiUpperPre ++ S) := by
      simp only [clean_doi, hstrip, begins_https_doiU, begins_http_doiU, begins_doi_doiU,
        Bool.false_eq_true, if_false, begins_append_self, if_pos]
    rw [hsel, replaceDel_append_self _ _ (by decide) hocc]

/-- A string that stripping fixes and that starts with no recognized marker
passes through `clean_doi` unchanged. -/
theorem clean_doi_canonical (s : PyStr) (hstrip : pyStrip s = s)
    (hpre : ∀ p ∈ recognizedPres, begins p s = false) : clean_doi s = s := by
  have h1 := hpre httpsPre (by simp [recognizedPres])
  have h2 := hpre httpPre (by simp [recognizedPres])
  have h3 := hpre doiPre (by simp [recognizedPres])
  have h4 := hpre doiUpperPre (by simp [recognizedPres])
  simp only [clean_doi, hstrip, h1, h2, h3, h4, Bool.false_eq_true, if_false]

/-! Step lemmas for the retry loop of `download_pdf`. -/

/-- Loop step: a raised network exception removes the file and retries. -/
theorem dlLoop_netErr (url : PyStr) (rest : List AttemptEnv) (file : Option (List Nat)) :
    download_pdf_loop url (.netErr :: rest) file
      = ((download_pdf_loop url rest none).1, (download_pdf_loop url rest none).2.1,
         (download_pdf_loop url rest none).2.2 + 1) := by
  simp only [download_pdf_loop]

/-- Loop step: HTTP 403 on a non-final attempt continues, file untouched. -/
theorem dlLoop_403 (url : PyStr) (rest : List AttemptEnv) (file : Option (List Nat))
    (status : Nat) (ctype : PyStr) (body : List Nat)
    (hcond : (status == 403 && !rest.isEmpty) = true) :
    download_pdf_loop url (.resp status ctype body :: rest) file
      = ((download_pdf_loop url rest file).1, (download_pdf_loop url rest file).2.1,
         (download_pdf_loop url rest file).2.2 + 1) := by
  simp only [download_pdf_loop, hcond, if_pos]

/-- Loop step: any other HTTP error removes the file and retries. -/
theorem dlLoop_httpErr (url : PyStr) (rest : List AttemptEnv) (file : Option (List Nat))
    (status : Nat) (ctype : PyStr) (body : List Nat)
    (hcond : (status == 403 && !rest.isEmpty) = false) (hst : 400 ≤ status) :
    download_pdf_loop url (.resp status ctype body :: rest) file
      = ((download_pdf_loop url rest none).1, (download_pdf_loop url rest none).2.1,
         (download_pdf_loop url rest none).2.2 + 1) := by
  simp only [download_pdf_loop, hcond, Bool.false_eq_true, if_false, hst, if_pos]

/-- Loop step: a good, large-enough response succeeds with the written bytes
(the body minus its first 1024 bytes when the signature check consumed
them). -/
theorem dlLoop_ok (url : PyStr) (rest : List AttemptEnv) (file : Option (List Nat))
    (status : Nat) (ctype : PyStr) (body w : List Nat)
    (hcond : (status == 403 && !rest.isEmpty) = false)
    (hst : ¬ 400 ≤ status)
    (hw : (if (!occurs "pdf".toList (pyLower ctype) && !pyEnds ".pdf".toList (pyLower url)) = true
           then body.drop 1024 else body) = w)
    (hlen : 1000 < w.length) :
    download_pdf_loop url (.resp status ctype body :: rest) file = (true, some w, 1) := by
  simp only [download_pdf_loop, hcond, Bool.false_eq_true, if_false, hst, if_neg, hw]
  simp [hlen]

/-- Invariant of the retry loop started with no destination file: attempts
used never exceed the remaining list, overall failure leaves no file, and a
final file always exceeds 1000 bytes. -/
theorem dlLoop_spec (url : PyStr) (l : List AttemptEnv) :
    (download_pdf_loop url l none).2.2 ≤ l.length ∧
    ((download_pdf_loop url l none).1 = false → (download_pdf_loop url l none).2.1 = none) ∧
    (∀ b, (download_pdf_loop url l none).2.1 = some b → 1000 < b.length) := by
  induction l with
  | nil => simp [download_pdf_loop]
  | cons e rest ih =>
    cases e with
    | netErr =>
      rw [dlLoop_netErr]
      exact ⟨by simpa using Nat.succ_le_succ ih.1, fun h => ih.2.1 h, ih.2.2⟩
    | resp status ctype body =>
      by_cases h1 : (status == 403 && !rest.isEmpty) = true
      · rw [dlLoop_403 _ _ _ _ _ _ h1]
        exact ⟨by simpa using Nat.succ_le_succ ih.1, fun h => ih.2.1 h, ih.2.2⟩
      · have h1' : (status == 403 && !rest.isEmpty) = false := by
          revert h1; cases status == 403 && !rest.isEmpty <;> simp
        by_cases h2 : 400 ≤ status
        · rw [dlLoop_httpErr _ _ _ _ _ _ h1' h2]
          exact ⟨by simpa using Nat.succ_le_succ ih.1, fun h => ih.2.1 h, ih.2.2⟩
        · simp only [download_pdf_loop, h1', Bool.false_eq_true, if_false, h2, if_neg]
          split
          · split
            · next hlen =>
              refine ⟨by simp, by simp, ?_⟩
              intro b hb
              simp only [Option.some.injEq] at hb
              subst hb
              exact hlen
            · exact ⟨by simpa using Nat.succ_le_succ ih.1, fun h => ih.2.1 h, ih.2.2⟩
          · split
            · next hlen =>
              refine ⟨by simp, by simp, ?_⟩
              intro b hb
              simp only [Option.some.injEq] at hb
              subst hb
              exact hlen
            · exact ⟨by simpa using Nat.succ_le_succ ih.1, fun h => ih.2.1 h, ih.2.2⟩

/-- The key order of the catalog sort is total. -/
theorem keyLeB_total (x y : YearKey) : (keyLeB x y || keyLeB y x) = true := by
  cases x <;> cases y <;> simp [keyLeB] <;> omega

/-- The key order of the catalog sort is transitive. -/
theorem keyLeB_trans {x y z : YearKey} (h1 : keyLeB x y = true) (h2 : keyLeB y z = true) :
    keyLeB x z = true := by
  cases x <;> cases y <;> cases z <;> simp_all [keyLeB] <;> omega

/-- The only key at least the `"older"` sentinel is `"older"` itself. -/
theorem keyLeB_older_left {y : YearKey} (h : keyLeB .older y = true) : y = .older := by
  cases y <;> simp_all [keyLeB]

/-- Candidate selection scans an appended pool left part first. -/
theorem pickCandidate_append (uj root : PyStr → PyStr) (l1 l2 : List (PyStr × CandSrc)) :
    pickCandidate uj root (l1 ++ l2)
      = match pickCandidate uj root l1 with
        | some r => some r
        | none => pickCandidate uj root l2 := by
  induction l1 with
  | nil => simp [pickCandidate]
  | cons hd tl ih =>
    obtain ⟨u, s⟩ := hd
    simp only [List.cons_append, pickCandidate]
    split
    · rfl
    · exact ih

/-- The strategy tag of a selected candidate comes from the pool. -/
theorem pickCandidate_src_mem (uj root : PyStr → PyStr) (l : List (PyStr × CandSrc))
    (u : PyStr) (s : CandSrc) (h : pickCandidate uj root l = some (u, s)) :
    ∃ u0, (u0, s) ∈ l := by
  induction l with
  | nil => simp [pickCandidate] at h
  | cons hd tl ih =>
    obtain ⟨v, t⟩ := hd
    simp only [pickCandidate] at h
    by_cases hc : is_likely_pdf_url (absolutizeCand uj root v) = true
    · rw [if_pos hc] at h
      simp only [Option.some.injEq, Prod.mk.injEq] at h
      exact ⟨v, by simp [h.2]⟩
    · rw [if_neg hc] at h
      obtain ⟨u0, hu0⟩ := ih h
      exact ⟨u0, by simp [hu0]⟩

/-- Anchor-heuristic candidates never carry the meta-tag tag. -/
theorem anchorCands_src (links : List Link) :
    ∀ x ∈ anchorCands links, x.2 ≠ CandSrc.metaTag := by
  intro x hx
  simp only [anchorCands, List.mem_flatMap] at hx
  obtain ⟨l, _, hx⟩ := hx
  rcases List.mem_append.mp hx with h | h <;> split at h <;>
    simp_all [List.mem_singleton] <;> simp [h]

/-- Publisher-pattern candidates always carry the publisher tag. -/
theorem pubCands_src (url : PyStr) (links : List Link) :
    ∀ x ∈ get_publisher_pdf_patterns url links, x.2 = CandSrc.pubPattern := by
  intro x hx
  unfold get_publisher_pdf_patterns at hx
  repeat' split at hx
  all_goals first
  | exact absurd hx (List.not_mem_nil x)
  | (obtain ⟨a, -, rfl⟩ := List.mem_map.mp hx; rfl)
  | (rcases List.mem_append.mp hx with h | h
     · first
       | exact absurd h (List.not_mem_nil x)
       | (obtain rfl := List.mem_singleton.mp h; rfl)
     · obtain ⟨a, -, rfl⟩ := List.mem_map.mp h
       rfl)

/-! Claim theorems. -/

/-- C4: for all titles T1, T2 with equal lowercasings, if a record titled T1
is already present in any year group, merging a record titled T2 returns
`inserted = false` — the duplicate check is case-insensitive and spans every
record of every existing year group, regardless of year. -/
theorem duplicate_title_blocks_insertion (data : List YearGroup)
    (year fa t1 t2 doi : PyStr) (url : Option PyStr)
    (hlow : pyLower t1 = pyLower t2)
    (hpresent : ∃ g ∈ data, ∃ p ∈ g.publications, p.title = t1) :
    (add_publication_to_json data year fa t2 doi url).1 = false := by
  have hdup : isDupTitle data t2 = true := by
    obtain ⟨g, hg, p, hp, ht⟩ := hpresent
    simp only [isDupTitle, List.any_eq_true]
    exact ⟨g, hg, p, hp, beq_iff_eq.mpr (by rw [ht, hlow])⟩
  simp [add_publication_to_json, hdup]

/-- Witness for C4 at a concrete catalog: a case-varied duplicate of a stored
title is rejected. -/
theorem duplicate_title_blocks_witness :
    (add_publication_to_json
      [⟨YearKey.num 2023,
        [⟨"i".toList, "A Study".toList, [], "journal".toList, "published".toList⟩]⟩]
      "2021".toList "Smith".toList "a STUDY".toList "10.1/x".toList none).1 = false :=
  duplicate_title_blocks_insertion _ _ _ "A Study".toList _ _ _ (by decide) (by decide)

/-- C5: a year that parses as an integer at least 2022 keys its own numeric
group; an unparseable year or one below 2022 keys the `"older"` sentinel. -/
theorem year_group_key_spec (y : PyStr) :
    (∀ n : Int, pyInt y = some n → 2022 ≤ n → yearCategory y = .num n) ∧
    ((pyInt y = none ∨ ∃ n, pyInt y = some n ∧ n < 2022) → yearCategory y = .older) := by
  constructor
  · intro n hn h2022
    simp only [yearCategory, hn]
    rw [if_neg (by omega)]
  · intro h
    rcases h with h | ⟨n, hn, hlt⟩
    · simp [yearCategory, h]
    · simp [yearCategory, hn, hlt]

/-- Witness for C5 at concrete years 2023 (kept), 2021 and `n/a` (older). -/
theorem year_group_key_witness :
    yearCategory "2023".toList = .num 2023 ∧
    yearCategory "2021".toList = .older ∧
    yearCategory "n/a".toList = .older :=
  ⟨(year_group_key_spec "2023".toList).1 2023 (by decide) (by decide),
   (year_group_key_spec "2021".toList).2 (Or.inr ⟨2021, by decide, by decide⟩),
   (year_group_key_spec "n/a".toList).2 (Or.inl (by decide))⟩

/-- C7 counterexample: the code's `str.replace` removes every occurrence of
the matched marker, not exactly one, so for the recognized marker `doi:` and
the body `10.1/doi:y` (which starts with no recognized marker) the claim's
promised result is not produced. -/
theorem clean_doi_strip_cx :
    doiPre ∈ recognizedPres ∧
    (∀ p ∈ recognizedPres, begins p "10.1/doi:y".toList = false) ∧
    clean_doi (doiPre ++ "10.1/doi:y".toList) ≠ "10.1/doi:y".toList :=
  ⟨by simp [recognizedPres], by decide, by decide⟩

/-- C7 (amended): cleaning `P ++ S` for a recognized marker `P` yields `S`
when `S` contains no occurrence of `P` and carries no trailing whitespace
(`str.replace` deletes every occurrence and the result is not re-stripped);
the named scenario still holds. -/
theorem clean_doi_strip_amended :
    (∀ P ∈ recognizedPres, ∀ S : PyStr, occurs P S = false →
        pyStrip (P ++ S) = P ++ S → clean_doi (P ++ S) = S) ∧
    clean_doi "https://doi.org/10.1038/nature12373".toList = "10.1038/nature12373".toList := by
  refine ⟨?_, by decide⟩
  intro P hP S hocc hstrip
  exact clean_doi_marker P S hP hstrip hocc

/-- Witness for the amended C7 at the marker `doi:` and body `10.99/abc`. -/
theorem clean_doi_strip_witness :
    clean_doi (doiPre ++ "10.99/abc".toList) = "10.99/abc".toList :=
  clean_doi_strip_amended.1 doiPre (by simp [recognizedPres]) "10.99/abc".toList
    (by decide) (by decide)

/-- C8 counterexample: normalization is not idempotent — the first pass on
`doi: 10.1/x` leaves a leading space that only the second pass strips. -/
theorem clean_doi_idempotent_cx :
    clean_doi (clean_doi "doi: 10.1/x".toList) ≠ clean_doi "doi: 10.1/x".toList := by
  decide

/-- C8 (amended): on already-canonical identifiers — whitespace-trimmed and
starting with no recognized marker — normalization returns its input
unchanged and hence is idempotent there; full idempotence fails. -/
theorem clean_doi_idempotent_amended (s : PyStr) (hstrip : pyStrip s = s)
    (hpre : ∀ p ∈ recognizedPres, begins p s = false) :
    clean_doi s = s ∧ clean_doi (clean_doi s) = clean_doi s := by
  have h := clean_doi_canonical s hstrip hpre
  exact ⟨h, by rw [h, h]⟩

/-- Witness for the amended C8 at a canonical identifier. -/
theorem clean_doi_idempotent_witness :
    clean_doi "10.1038/nature12373".toList = "10.1038/nature12373".toList ∧
    clean_doi (clean_doi "10.1038/nature12373".toList)
      = clean_doi "10.1038/nature12373".toList :=
  clean_doi_idempotent_amended "10.1038/nature12373".toList (by decide) (by decide)

/-- C10: a merge rejected as a duplicate returns the catalog exactly as it
was — no group added or removed, no record appended. -/
theorem duplicate_merge_no_mutation (data : List YearGroup)
    (year fa title doi : PyStr) (url : Option PyStr)
    (hdup : ∃ g ∈ data, ∃ p ∈ g.publications, pyLower p.title = pyLower title) :
    add_publication_to_json data year fa title doi url = (false, data) := by
  have h : isDupTitle data title = true := by
    obtain ⟨g, hg, p, hp, ht⟩ := hdup
    simp only [isDupTitle, List.any_eq_true]
    exact ⟨g, hg, p, hp, beq_iff_eq.mpr ht⟩
  simp [add_publication_to_json, h]

/-- Witness for C10 at a concrete catalog with a duplicate title. -/
theorem duplicate_merge_no_mutation_witness :
    add_publication_to_json
      [⟨YearKey.older,
        [⟨"i".toList, "Deep Learning".toList, [], "journal".toList, "published".toList⟩]⟩]
      "2019".toList "Lee".toList "DEEP learning".toList "10.2/y".toList none
      = (false,
         [⟨YearKey.older,
           [⟨"i".toList, "Deep Learning".toList, [], "journal".toList, "published".toList⟩]⟩]) :=
  duplicate_merge_no_mutation _ _ _ _ _ _ (by decide)

/-- C2: the fetcher makes at most `max_retries` attempts; overall failure
leaves no file at the destination; and no final artifact is 1000 bytes or
smaller, so an undersized written file is never the final artifact. -/
theorem download_retry_bound_and_cleanup (url : PyStr) (env : Nat → AttemptEnv)
    (maxRetries : Nat) :
    (download_pdf url env maxRetries).2.2 ≤ maxRetries ∧
    ((download_pdf url env maxRetries).1 = false →
      (download_pdf url env maxRetries).2.1 = none) ∧
    (∀ b, (download_pdf url env maxRetries).2.1 = some b → 1000 < b.length) := by
  have h := dlLoop_spec url ((List.range maxRetries).map env)
  have hlen : ((List.range maxRetries).map env).length = maxRetries := by simp
  exact ⟨by simpa [download_pdf, hlen] using h.1,
         fun hf => h.2.1 hf, h.2.2⟩

/-- Witness for C2: two exhausted attempts on a failing network — at most
two attempts used and no file remains. -/
theorem download_retry_cleanup_witness :
    (download_pdf "https://x.org/a".toList (fun _ => AttemptEnv.netErr) 2).2.2 ≤ 2 ∧
    (download_pdf "https://x.org/a".toList (fun _ => AttemptEnv.netErr) 2).2.1 = none :=
  ⟨(download_retry_bound_and_cleanup "https://x.org/a".toList (fun _ => AttemptEnv.netErr) 2).1,
   (download_retry_bound_and_cleanup "https://x.org/a".toList
      (fun _ => AttemptEnv.netErr) 2).2.1 (by decide)⟩

/-- C9: with `max_retries = 3`, HTTP 403 on attempts 1 and 2 followed by a
valid over-1000-byte document response on attempt 3 yields overall success,
using exactly the three allowed attempts — a non-final 403 leads to the next
attempt, not terminal failure. -/
theorem download_403_retry_scenario (body : List Nat) (hbody : 1000 < body.length) :
    download_pdf "https://pubs.example.org/doc".toList
      (fun n => if n < 2 then AttemptEnv.resp 403 "text/html".toList []
                else AttemptEnv.resp 200 "application/pdf".toList body) 3
      = (true, some body, 3) := by
  have h0 : download_pdf "https://pubs.example.org/doc".toList
      (fun n => if n < 2 then AttemptEnv.resp 403 "text/html".toList []
                else AttemptEnv.resp 200 "application/pdf".toList body) 3
      = download_pdf_loop "https://pubs.example.org/doc".toList
        [AttemptEnv.resp 403 "text/html".toList [],
         AttemptEnv.resp 403 "text/html".toList [],
         AttemptEnv.resp 200 "application/pdf".toList body] none := rfl
  rw [h0]
  rw [dlLoop_403 _ _ _ _ _ _ (by simp)]
  rw [dlLoop_403 _ _ _ _ _ _ (by simp)]
  rw [dlLoop_ok _ _ _ _ _ _ body (by simp) (by norm_num)
    (by rw [if_neg]; decide) hbody]

/-- Witness for C9 at a concrete 1500-byte document body. -/
theorem download_403_retry_witness :
    download_pdf "https://pubs.example.org/doc".toList
      (fun n => if n < 2 then AttemptEnv.resp 403 "text/html".toList []
                else AttemptEnv.resp 200 "application/pdf".toList (List.replicate 1500 37)) 3
      = (true, some (List.replicate 1500 37), 3) :=
  download_403_retry_scenario (List.replicate 1500 37)
    (by rw [List.length_replicate]; norm_num)

/-- C3 (code divergence): when the content-type does not indicate a document
and the URL does not end in `.pdf`, the signature check consumes the first
1024 bytes of the body stream, so the successful attempt stores the body
minus its first 1024 bytes — not the entire body.  Evaluation at a 3000-byte
`text/html` response: the attempt succeeds but the destination holds only
the final 1976 bytes. -/
theorem download_first_chunk_lost :
    download_pdf "https://host.example/view".toList
      (fun _ => AttemptEnv.resp 200 "text/html".toList (List.replicate 3000 37)) 3
      = (true, some (List.replicate 1976 37), 1) ∧
    (List.replicate 1976 37 : List Nat) ≠ List.replicate 3000 37 := by
  constructor
  · have h0 : download_pdf "https://host.example/view".toList
        (fun _ => AttemptEnv.resp 200 "text/html".toList (List.replicate 3000 37)) 3
        = download_pdf_loop "https://host.example/view".toList
          [AttemptEnv.resp 200 "text/html".toList (List.replicate 3000 37),
           AttemptEnv.resp 200 "text/html".toList (List.replicate 3000 37),
           AttemptEnv.resp 200 "text/html".toList (List.replicate 3000 37)] none := rfl
    rw [h0]
    rw [dlLoop_ok _ _ _ _ _ _ (List.replicate 1976 37) (by decide) (by decide)
      (by rw [if_pos (by decide), List.drop_replicate])
      (by rw [List.length_replicate]; norm_num)]
  · intro h
    have hlen := congrArg List.length h
    rw [List.length_replicate, List.length_replicate] at hlen
    omega

/-- C6: after the persistence sort, the groups are pairwise ordered by the
descending key (with `"older"` largest), and consequently every `"older"`
group precedes every numeric group: any position at or before an `"older"`
position also holds an `"older"` group. -/
theorem catalog_sort_desc_older_first (data : List YearGroup) :
    List.Pairwise (fun a b => keyLeB b.year a.year = true) (saveSortGroups data) ∧
    (∀ i j : Nat, ∀ hi : i < (saveSortGroups data).length,
      ∀ hj : j < (saveSortGroups data).length, i ≤ j →
      ((saveSortGroups data).get ⟨j, hj⟩).year = .older →
      ((saveSortGroups data).get ⟨i, hi⟩).year = .older) := by
  have hpair : List.Pairwise (fun a b => keyLeB b.year a.year = true) (saveSortGroups data) := by
    haveI ht : IsTotal YearGroup (fun a b => keyLeB b.year a.year = true) := by
      constructor
      intro a b
      rcases Bool.or_eq_true_iff.mp (keyLeB_total b.year a.year) with h | h
      · exact Or.inl h
      · exact Or.inr h
    haveI htr : IsTrans YearGroup (fun a b => keyLeB b.year a.year = true) := by
      constructor
      intro a b c hab hbc
      exact keyLeB_trans hbc hab
    exact List.sorted_insertionSort _ data
  refine ⟨hpair, ?_⟩
  intro i j hi hj hij holder
  rcases Nat.lt_or_ge i j with hlt | hge
  · have hrel := (List.pairwise_iff_get.mp hpair) ⟨i, hi⟩ ⟨j, hj⟩ hlt
    rw [holder] at hrel
    exact keyLeB_older_left hrel
  · have heq : i = j := Nat.le_antisymm hij hge
    subst heq
    exact holder

/-- Witness for C6 at a concrete catalog: after sorting, position 0 holds an
`"older"` group because position 1 does. -/
theorem catalog_sort_witness :
    ((saveSortGroups
        [⟨YearKey.num 2023, []⟩, ⟨YearKey.older, []⟩, ⟨YearKey.older, []⟩]).get
      ⟨0, by decide⟩).year = YearKey.older :=
  (catalog_sort_desc_older_first
      [⟨YearKey.num 2023, []⟩, ⟨YearKey.older, []⟩, ⟨YearKey.older, []⟩]).2
    0 1 (by decide) (by decide) (by decide) (by decide)

/-- C1 counterexample: a landing page whose pool holds both a surviving
anchor-heuristic candidate and a surviving meta-tag candidate — the resolver
returns the anchor candidate, not the meta one, so the meta-tag strategy
does not take highest priority (absolute URLs make the library URL joins,
here instantiated with the identity, irrelevant). -/
theorem resolve_priority_cx :
    find_pdf_in_meta_tags [⟨"citation_pdf_url".toList, "http://x.org/m.pdf".toList⟩]
      = some "http://x.org/m.pdf".toList ∧
    is_likely_pdf_url (absolutizeCand id id "http://x.org/m.pdf".toList) = true ∧
    pyEnds ".pdf".toList (pyLower "http://x.org/page".toList) = false ∧
    resolve_doi_to_pdf_url id id "http://x.org/page".toList
      ⟨[⟨"http://x.org/a.pdf".toList, "download".toList⟩],
       [⟨"citation_pdf_url".toList, "http://x.org/m.pdf".toList⟩]⟩
      = "http://x.org/a.pdf".toList ∧
    "http://x.org/a.pdf".toList ≠ "http://x.org/m.pdf".toList :=
  ⟨by decide, by decide, by decide, by decide, by decide⟩

/-- C1 (amended): strategy priority is the reverse of the claim — the pool
is built anchor-heuristic candidates first, then publisher patterns, then
the meta-tag candidate, and the first surviving candidate of that order is
returned.  Hence whenever any anchor or publisher candidate survives the
URL-shape filter it is returned (and it is never the meta-tag candidate);
the meta-tag candidate is returned only when no anchor or publisher
candidate survives. -/
theorem resolve_priority_amended (uj root : PyStr → PyStr) (purl : PyStr) (page : Page)
    (hnotpdf : pyEnds ".pdf".toList (pyLower purl) = false) :
    (∀ u s, pickCandidate uj root
        (anchorCands page.links ++ get_publisher_pdf_patterns purl page.links)
        = some (u, s) →
      resolve_doi_to_pdf_url uj root purl page = u ∧ s ≠ CandSrc.metaTag) ∧
    (pickCandidate uj root
        (anchorCands page.links ++ get_publisher_pdf_patterns purl page.links) = none →
      ∀ m, find_pdf_in_meta_tags page.metas = some m →
        is_likely_pdf_url (absolutizeCand uj root m) = true →
        resolve_doi_to_pdf_url uj root purl page = absolutizeCand uj root m) := by
  constructor
  · intro u s hpick
    constructor
    · unfold resolve_doi_to_pdf_url
      rw [if_neg (by simp only [Bool.not_eq_true]; exact hnotpdf)]
      have hres : pickCandidate uj root (resolveCands purl page) = some (u, s) := by
        unfold resolveCands
        rw [pickCandidate_append, hpick]
      rw [hres]
    · obtain ⟨u0, hmem⟩ := pickCandidate_src_mem _ _ _ _ _ hpick
      rcases List.mem_append.mp hmem with h | h
      · exact anchorCands_src _ _ h
      · have hs : s = CandSrc.pubPattern := pubCands_src _ _ _ h
        rw [hs]
        decide
  · intro hnone m hmeta hlikely
    unfold resolve_doi_to_pdf_url
    rw [if_neg (by simp only [Bool.not_eq_true]; exact hnotpdf)]
    have hres : pickCandidate uj root (resolveCands purl page)
        = some (absolutizeCand uj root m, CandSrc.metaTag) := by
      unfold resolveCands
      rw [hmeta, pickCandidate_append, hnone]
      simp [pickCandidate, hlikely]
    rw [hres]

/-- Witness for the amended C1: a page with a single full-text anchor — the
anchor candidate survives and is returned, with a non-meta tag. -/
theorem resolve_priority_witness :
    resolve_doi_to_pdf_url id id "http://w.org/item".toList
      ⟨[⟨"http://w.org/paper.pdf".toList, "Full Text".toList⟩], []⟩
      = "http://w.org/paper.pdf".toList ∧ CandSrc.anchorText ≠ CandSrc.metaTag :=
  (resolve_priority_amended id id "http://w.org/item".toList
      ⟨[⟨"http://w.org/paper.pdf".toList, "Full Text".toList⟩], []⟩ (by decide)).1
    "http://w.org/paper.pdf".toList CandSrc.anchorText (by decide)
